import Mathlib

/-!
Verification of the BENEXT video-processor service.

The repository contains three variants of the same Express service
(src/index.js, src/unnamed/part_000, src/unnamed/part_001).  They share the
job queue / busy-flag scheduler; they differ in submission validation, in
workspace cleanup, in the variant-planning policy, and in audio handling.
The definitions below are shallow embeddings of those source functions:

* `Sched`, `runNext`, `enqueue`, `finishJob` — the queue, the `isProcessing`
  flag and `processNextInQueue` admission (part_000 lines 172-198,
  index.js lines 69-110, part_001 lines 87-132); JavaScript runs the
  bookkeeping between two `await` points atomically, so each bookkeeping
  block is one transition of the `Step` relation.
* `variantsFor`, `segDurationNum` — the tier policy of part_000
  `processVideoWithFFmpeg` (lines 71-92) and the segment-duration rule.
* `jobStatusResponse` — part_001 `GET /job/:jobId` (lines 69-85).
* `part000Submit`, `part001Submit` — the `POST /process-video` handlers
  (part_000 lines 201-211; part_001 lines 38-66 and index.js lines 33-59).
* `indexJsRun`, `part000Run`, `part001Run` — the per-job pipelines, as
  functions from an environment of stage results to the list of performed
  filesystem / process actions and the job outcome.
* `jsExtname`, `tempInputPath`, `ffprobeDurationCmd`, `indexFfmpegCmd`,
  `part001FfmpegCmd` — the path and shell-command construction.
-/

/-- A queued job, as pushed by the `POST /process-video` handlers.
`outputPref` models the source field holding the destination key base
(called `outputPrefix` in the JavaScript); index.js stores no `id` on the
queue entry, part_000 and part_001 do. -/
structure Job where
  id : String
  bucket : String
  key : String
  outputPref : String
deriving DecidableEq, Repr

/-- Kind of a pipeline-stage failure (which stage rejected). -/
inductive ErrKind
  | mkdirFail
  | storage
  | probe
  | transcode
  | upload
deriving DecidableEq, Repr

/-- Terminal result of one executed job: the promise chain either resolved
(`completed`) or rejected and the rejection was caught and logged
(`failed`, with the stage kind and the diagnostic text). -/
inductive Outcome
  | completed
  | failed (kind : ErrKind) (msg : String)
deriving DecidableEq, Repr

/-- The scheduler's shared mutable state: `queue` is `processingQueue`,
`busy` is `isProcessing`, `active` is the list of pipeline instances
currently running (held in local variables of the running
`processNextInQueue` invocations), `finished` records executed jobs in
completion order, and `submitted` is the ghost history of accepted
submissions in arrival order. -/
structure Sched where
  queue : List Job
  busy : Bool
  active : List Job
  finished : List (Job × Outcome)
  submitted : List Job
deriving DecidableEq, Repr

/-- The state at service start: empty queue, `isProcessing = false`. -/
def Sched.init : Sched :=
  { queue := [], busy := false, active := [], finished := [], submitted := [] }

/-- part_000 `processNextInQueue` admission (lines 172-175): return if the
busy flag is set or the queue is empty; otherwise set the flag and shift
the queue head into the running slot — one synchronous block, hence one
transition. -/
def runNext (s : Sched) : Sched :=
  if s.busy then s
  else
    match s.queue with
    | [] => s
    | j :: rest => { s with busy := true, queue := rest, active := s.active ++ [j] }

/-- Models `processingQueue.push(job)` in the submit handlers, together with the
ghost record of the submission. -/
def enqueue (s : Sched) (j : Job) : Sched :=
  { s with queue := s.queue ++ [j], submitted := s.submitted ++ [j] }

/-- End of one pipeline (part_000 lines 192-198): the job's promise chain
settles with outcome `o`, the `finally` block clears `isProcessing` and
calls `processNextInQueue()` again. -/
def finishJob (s : Sched) (j : Job) (o : Outcome) : Sched :=
  runNext { s with busy := false, active := [], finished := s.finished ++ [(j, o)] }

/-- Interleaving semantics of the event loop: a submission may arrive at
any time (push then `processNextInQueue`), and the currently running
pipeline may settle at any time. -/
inductive Step : Sched → Sched → Prop
  | submit (s : Sched) (j : Job) : Step s (runNext (enqueue s j))
  | finish (s : Sched) (j : Job) (o : Outcome) (h : s.active = [j]) :
      Step s (finishJob s j o)

/-- States reachable from service start by any interleaving of submissions
and pipeline completions. -/
inductive Reachable : Sched → Prop
  | init : Reachable Sched.init
  | step {s t : Sched} : Reachable s → Step s t → Reachable t

/-- The scheduler invariant: at most one pipeline instance is active, the
busy flag is set exactly while one is, the submission history is exactly
the executed jobs (in execution order) followed by the active one followed
by the still-queued ones (strict FIFO), and an idle scheduler has an empty
queue. -/
def SchedInv (s : Sched) : Prop :=
  s.active.length ≤ 1 ∧
  (s.busy = true ↔ s.active ≠ []) ∧
  s.submitted = s.finished.map Prod.fst ++ s.active ++ s.queue ∧
  (s.busy = false → s.queue = [])

instance (s : Sched) : Decidable (SchedInv s) := by
  unfold SchedInv
  infer_instance

theorem schedInv_init : SchedInv Sched.init := by
  decide

theorem schedInv_submit (s : Sched) (j : Job) (h : SchedInv s) :
    SchedInv (runNext (enqueue s j)) := by
  obtain ⟨h1, h2, h3, h4⟩ := h
  by_cases hb : s.busy = true
  · have hact : s.active ≠ [] := h2.mp hb
    simp only [runNext, enqueue, hb, if_true]
    refine ⟨h1, ?_, ?_, ?_⟩
    · simpa [hb] using hact
    · simp [h3]
    · intro hc
      simp [hb] at hc
  · have hbf : s.busy = false := by
      cases hsb : s.busy
      · rfl
      · exact absurd hsb hb
    have hq : s.queue = [] := h4 hbf
    have hact : s.active = [] := by
      by_contra hne
      exact hb (h2.mpr hne)
    simp only [runNext, enqueue, hbf, hq, hact, if_false, List.nil_append,
      Bool.false_eq_true]
    refine ⟨by simp, by simp, ?_, by simp⟩
    simp [h3, hq, hact]

theorem schedInv_finish (s : Sched) (j : Job) (o : Outcome)
    (h : SchedInv s) (ha : s.active = [j]) : SchedInv (finishJob s j o) := by
  obtain ⟨h1, h2, h3, h4⟩ := h
  have hsub : s.submitted = s.finished.map Prod.fst ++ [j] ++ s.queue := by
    rw [h3, ha]
  unfold finishJob runNext
  cases hq : s.queue with
  | nil =>
      refine ⟨by simp, by simp, ?_, by simp⟩
      simp [hsub, hq]
  | cons q rest =>
      refine ⟨by simp, by simp, ?_, by simp⟩
      simp only [List.map_append, List.map_cons]
      rw [hsub, hq]
      simp

/-- Claim C1: for every interleaving of submissions and pipeline
completions, at most one job is in a running (non-Queued, non-terminal)
state, the busy flag is set exactly while a pipeline is active, jobs are
executed in exactly the order they were enqueued (strict FIFO: the
submission history equals executed ++ active ++ queued), and an idle
scheduler has an empty queue. -/
theorem c1_fifo_single_active (s : Sched) (h : Reachable s) : SchedInv s := by
  induction h with
  | init => exact schedInv_init
  | step _ hst ih =>
      cases hst with
      | submit j => exact schedInv_submit _ j ih
      | finish j o hact => exact schedInv_finish _ j o ih hact

/-- A first submitted job, used as the concrete input of the witnesses and
counterexamples. -/
def jA : Job :=
  { id := "1001", bucket := "videos", key := "lectureA.mp4",
    outputPref := "processed/lectureA" }

/-- A second submitted job. -/
def jB : Job :=
  { id := "1002", bucket := "videos", key := "lectureB.mp4",
    outputPref := "processed/lectureB" }

/-- Witness for C1: the invariant, obtained from `c1_fifo_single_active`
at the concrete reachable state in which `jA` was submitted and started
and `jB` was submitted behind it. -/
theorem c1_fifo_single_active_witness :
    SchedInv (runNext (enqueue (runNext (enqueue Sched.init jA)) jB)) :=
  c1_fifo_single_active _
    (Reachable.step (Reachable.step Reachable.init (Step.submit Sched.init jA))
      (Step.submit (runNext (enqueue Sched.init jA)) jB))

/-- Response shape of part_001 `GET /job/:jobId` (lines 69-85). -/
inductive StatusResp
  | queued (position : Int)
  | completed
  | notFound
deriving DecidableEq, Repr

/-- JavaScript `Array.prototype.findIndex`: index of the first match, or
`-1` when there is none (part_001 line 73). -/
def findIndexJs (q : List Job) (jid : String) : Int :=
  match q.findIdx? (fun j => j.id = jid) with
  | some i => (i : Int)
  | none => -1

/-- part_001 `GET /job/:jobId` (lines 69-85): if the id is found in the
queue, answer `queued` with the 1-based position; otherwise answer the
ternary `queuePosition === -1 ? 'completed' : 'not_found'` — in that
branch the index is always `-1`, so the answer is always `completed`. -/
def jobStatusResponse (q : List Job) (jid : String) : StatusResp :=
  let pos := findIndexJs q jid
  if 0 ≤ pos then StatusResp.queued (pos + 1)
  else if pos = -1 then StatusResp.completed
  else StatusResp.notFound

/-- A job id that is never submitted anywhere in this development. -/
def ghostId : String := "9999"

/-- Claim C6 (code bug): the `not_found` arm of part_001's status endpoint
is dead code — for every queue and every id the response is never
`notFound` — and in particular a query for an id that was never submitted
is answered `completed` (HTTP 200), not `NotFound`. -/
theorem c6_notFound_unreachable :
    (∀ (q : List Job) (jid : String), jobStatusResponse q jid ≠ StatusResp.notFound) ∧
    jobStatusResponse [jB] ghostId = StatusResp.completed := by
  constructor
  · intro q jid
    unfold jobStatusResponse findIndexJs
    cases h : q.findIdx? (fun j => j.id = jid) with
    | none => simp
    | some i =>
        simp only []
        split
        · simp
        · omega
  · decide

/-- Result of a `POST /process-video` request: HTTP 400, or HTTP 202 with
the reported queue position and job id. -/
inductive SubmitResp
  | badRequest
  | accepted (position : Int) (jobId : String)
deriving DecidableEq, Repr

/-- The reversed-list helper for Node `path.basename`: the characters of
the last path component. -/
def jsBasenameChars (p : List Char) : List Char :=
  (p.reverse.takeWhile (fun c => c ≠ '/')).reverse

/-- Node `path.extname`: the substring of the basename from its last dot,
empty when the basename has no dot or only a leading dot. -/
def jsExtname (p : String) : String :=
  let b := jsBasenameChars p.toList
  let afterRev := b.reverse.takeWhile (fun c => c ≠ '.')
  if afterRev.length = b.length then ""
  else if b.length - afterRev.length - 1 = 0 then ""
  else String.mk (b.drop (b.length - afterRev.length - 1))

/-- Node `path.basename(key, path.extname(key))`: the basename with its
extension removed. -/
def jsBasenameNoExt (k : String) : String :=
  let b := jsBasenameChars k.toList
  String.mk (b.take (b.length - (jsExtname k).toList.length))

/-- The default destination used by index.js line 46 and part_001 line 53
when the request body has no output key base:
`processed/` followed by the basename of the key without its extension. -/
def jsDefaultOutput (key : String) : String :=
  "processed/" ++ jsBasenameNoExt key

/-- part_000 `POST /process-video` (lines 201-211): reject with HTTP 400
when `bucket`, `key` or `outputPrefix` is missing (falsy, here: the empty
string); otherwise push the job, respond 202 with
`position: processingQueue.length` (computed before any dequeue), then
call `processNextInQueue()`. -/
def part000Submit (s : Sched) (bucket key outputPref nowId : String) :
    SubmitResp × Sched :=
  if bucket = "" ∨ key = "" ∨ outputPref = "" then (SubmitResp.badRequest, s)
  else
    let j : Job := { id := nowId, bucket := bucket, key := key, outputPref := outputPref }
    let s1 := enqueue s j
    (SubmitResp.accepted (Int.ofNat s1.queue.length) nowId, runNext s1)

/-- part_001 `POST /process-video` (lines 38-66), identical in index.js
(lines 33-59) except that index.js stores no id on the queue entry:
reject with HTTP 400 only when `bucket` or `key` is missing; default a
missing `outputPrefix`; push the job; if the scheduler is idle call
`processNextInQueue()` — which synchronously sets the flag and shifts the
queue before suspending at the download — and only then respond 202 with
`position: processingQueue.length`. -/
def part001Submit (s : Sched) (bucket key outputPref nowId : String) :
    SubmitResp × Sched :=
  if bucket = "" ∨ key = "" then (SubmitResp.badRequest, s)
  else
    let dest := if outputPref = "" then jsDefaultOutput key else outputPref
    let j : Job := { id := nowId, bucket := bucket, key := key, outputPref := dest }
    let s1 := enqueue s j
    let s2 := if s1.busy then s1 else runNext s1
    (SubmitResp.accepted (Int.ofNat s2.queue.length) nowId, s2)

/-- The bucket name used in concrete submissions. -/
def bName : String := "videos"

/-- The object key used in concrete submissions. -/
def kName : String := "clip.mp4"

/-- A non-empty destination key base used in concrete submissions. -/
def oName : String := "processed/clip"

/-- The empty string, standing for a missing (falsy) request field. -/
def emptyField : String := ""

/-- Claim C5, counterexample: a submission with `bucket` and `key` present
but `outputPrefix` missing is not rejected by the index.js / part_001
handler — it is accepted with HTTP 202, the queue is mutated (the job is
enqueued with the defaulted destination `processed/clip`) and execution is
triggered, contradicting the claim that a missing `outputPrefix` yields
`InvalidRequest` and leaves the queue unchanged. -/
theorem c5_counterexample :
    (part001Submit Sched.init bName kName emptyField ghostId).1 ≠ SubmitResp.badRequest ∧
    (part001Submit Sched.init bName kName emptyField ghostId).2 ≠ Sched.init ∧
    (part001Submit Sched.init bName kName emptyField ghostId).2.submitted =
      [{ id := ghostId, bucket := bName, key := kName, outputPref := oName }] := by
  refine ⟨?_, ?_, ?_⟩ <;> decide

/-- Claim C5, amended: part_000's handler rejects a submission whose
`bucket`, `key` or `outputPrefix` is missing, with HTTP 400 and the whole
scheduler state (queue, flag, running slot) unchanged and no execution
triggered; the index.js / part_001 handler guarantees this only for
`bucket` and `key`, defaulting a missing `outputPrefix` instead. -/
theorem c5_amended (s : Sched) (b k o nid : String) :
    ((b = "" ∨ k = "" ∨ o = "") → part000Submit s b k o nid = (SubmitResp.badRequest, s)) ∧
    ((b = "" ∨ k = "") → part001Submit s b k o nid = (SubmitResp.badRequest, s)) := by
  constructor
  · intro h
    unfold part000Submit
    simp [h]
  · intro h
    unfold part001Submit
    simp [h]

/-- Witness for C5 (amended): a concrete rejected submission — missing
`outputPrefix` at part_000's handler — leaves the initial state unchanged.
-/
theorem c5_amended_witness :
    part000Submit Sched.init bName kName emptyField ghostId =
      (SubmitResp.badRequest, Sched.init) :=
  (c5_amended Sched.init bName kName emptyField ghostId).1 (Or.inr (Or.inr rfl))

/-- Claim C8, counterexample: submitting to an idle scheduler through
part_000's handler reports `position: 1` (the queue length right after the
push, line 209) even though the very same submission then starts the job
(line 210): afterwards the job is executing and zero jobs are still
queued, so a position "not counting a job that begins executing as a
result of this submission" would have to be 0, not 1. -/
theorem c8_counterexample :
    (part000Submit Sched.init bName kName oName ghostId).1 =
      SubmitResp.accepted 1 ghostId ∧
    (part000Submit Sched.init bName kName oName ghostId).2.active ≠ [] ∧
    (part000Submit Sched.init bName kName oName ghostId).2.queue = [] := by
  refine ⟨?_, ?_, ?_⟩ <;> decide

/-- Claim C8, amended: for a valid submission, the index.js / part_001
handler reports the number of jobs still queued after its synchronous
handoff — the new job's 1-based queue position when the scheduler was
busy, and 0 when the scheduler was idle and the job itself started —
while part_000's handler always reports the queue length right after the
push (the job's 1-based position at enqueue time, counting it even when it
immediately starts).  Neither handler blocks on transcoding: no job
finishes during the call. -/
theorem c8_amended (s : Sched) (b k o nid : String) (hinv : SchedInv s)
    (hb : b ≠ "") (hk : k ≠ "") (ho : o ≠ "") :
    (part001Submit s b k o nid).1 =
      SubmitResp.accepted (Int.ofNat (if s.busy then s.queue.length + 1 else 0)) nid ∧
    (part000Submit s b k o nid).1 =
      SubmitResp.accepted (Int.ofNat (s.queue.length + 1)) nid ∧
    (part001Submit s b k o nid).2.finished = s.finished ∧
    (part000Submit s b k o nid).2.finished = s.finished := by
  obtain ⟨h1, h2, h3, h4⟩ := hinv
  have hcond : ¬(b = "" ∨ k = "" ∨ o = "") := by
    rintro (h | h | h) <;> [exact hb h; exact hk h; exact ho h]
  have hcond2 : ¬(b = "" ∨ k = "") := by
    rintro (h | h) <;> [exact hb h; exact hk h]
  refine ⟨?_, ?_, ?_, ?_⟩
  · unfold part001Submit
    simp only [hcond2, if_false]
    cases hbusy : s.busy with
    | true => simp [enqueue, hbusy]
    | false =>
        have hq : s.queue = [] := h4 hbusy
        simp [enqueue, runNext, hbusy, hq]
  · unfold part000Submit
    simp [hcond, enqueue]
  · unfold part001Submit
    simp only [hcond2, if_false]
    cases hbusy : s.busy with
    | true => simp [enqueue, hbusy]
    | false =>
        have hq : s.queue = [] := h4 hbusy
        simp [enqueue, runNext, hbusy, hq]
  · unfold part000Submit
    simp only [hcond, if_false]
    cases hbusy : s.busy with
    | true => simp [enqueue, runNext, hbusy]
    | false =>
        have hq : s.queue = [] := h4 hbusy
        simp [enqueue, runNext, hbusy, hq]

/-- Witness for C8 (amended): at the idle initial state, the index.js /
part_001 handler reports position 0 for a valid submission. -/
theorem c8_amended_witness :
    (part001Submit Sched.init bName kName oName ghostId).1 =
      SubmitResp.accepted (Int.ofNat 0) ghostId := by
  have h := c8_amended Sched.init bName kName oName ghostId schedInv_init
    (by decide) (by decide) (by decide)
  simpa using h.1

/-- One output quality tier of part_000's dynamic variant plan
(lines 82-92): the bitrate in kbit/s (the code's `'400k'` strings) and the
fixed output width of the scale filter (the number before
`:trunc(ow/a/2)*2` in the code's `resolution` strings). -/
structure Variant where
  bitrateK : Nat
  widthTarget : Nat
deriving DecidableEq, Repr

/-- part_000 `processVideoWithFFmpeg` tier selection (lines 82-92):
height ≤ 360 gives one tier (400k at width 480); height ≤ 720 adds a
1000k tier at width `Math.min(width, 1280)`; taller sources get 400k at
480, 1000k at 720 and 2000k at `Math.min(width, 1920)`. -/
def variantsFor (width height : Nat) : List Variant :=
  if height ≤ 360 then [⟨400, 480⟩]
  else if height ≤ 720 then [⟨400, 480⟩, ⟨1000, min width 1280⟩]
  else [⟨400, 480⟩, ⟨1000, 720⟩, ⟨2000, min width 1920⟩]

/-- The segment-duration rule `duration < 300 ? 2 : 4` (part_000 line 72,
part_001 line 174).  The duration is the number produced by
`parseFloat` on the probe output; `none` stands for JavaScript `NaN`
(an unparsable probe output), and since `NaN < 300` is false in
JavaScript, `none` yields 4. -/
def segDurationNum (d : Option ℚ) : Nat :=
  match d with
  | some x => if x < 300 then 2 else 4
  | none => 4

/-- Claim C4, counterexample: a 320×240 source (native height ≤ 360)
yields the single 400k tier, whose scale filter targets width 480 —
strictly larger than the native width 320, so the plan does upscale,
contradicting the claim that no tier's target width ever exceeds the
native width. -/
theorem c4_counterexample :
    (variantsFor 320 240).length = 1 ∧
    ∃ v ∈ variantsFor 320 240, 320 < v.widthTarget := by
  refine ⟨by decide, ⟨⟨400, 480⟩, by decide, by decide⟩⟩

/-- Claim C4, amended: the tier count and bitrates follow the claimed
height policy (≤ 360 → one 400k tier; ≤ 720 → two tiers adding 1000k;
else three tiers adding 2000k), bitrates strictly increase, the segment
duration is 2 seconds for durations below 300 and 4 otherwise, and the
top 2000k tier is capped at `min(width, 1920)` and never exceeds the
native width — but the 400k tier always targets width 480 and the 1000k
tier of the three-tier branch always targets width 720, so those tiers
can exceed (upscale) the native width. -/
theorem c4_amended (w h : Nat) (d : ℚ) :
    (variantsFor w h).map Variant.bitrateK =
      (if h ≤ 360 then [400] else if h ≤ 720 then [400, 1000] else [400, 1000, 2000]) ∧
    List.Chain' (· < ·) ((variantsFor w h).map Variant.bitrateK) ∧
    (∀ v ∈ variantsFor w h, v.bitrateK = 2000 → v.widthTarget = min w 1920 ∧ v.widthTarget ≤ w) ∧
    (∀ v ∈ variantsFor w h, v.bitrateK = 400 → v.widthTarget = 480) ∧
    (d < 300 → segDurationNum (some d) = 2) ∧
    (300 ≤ d → segDurationNum (some d) = 4) ∧
    segDurationNum none = 4 := by
  unfold variantsFor segDurationNum
  by_cases h360 : h ≤ 360
  · simp only [h360, if_true]
    refine ⟨rfl, by simp, by simp, by simp, ?_, ?_, trivial⟩
    · intro hd
      simp [hd]
    · intro hd
      rw [if_neg (by linarith)]
  · by_cases h720 : h ≤ 720
    · simp only [h360, h720, if_false, if_true]
      refine ⟨rfl, by simp, ?_, ?_, ?_, ?_, trivial⟩
      · intro v hv hbit
        simp only [List.mem_cons, List.not_mem_nil, or_false] at hv
        rcases hv with rfl | rfl <;> simp_all
      · intro v hv hbit
        simp only [List.mem_cons, List.not_mem_nil, or_false] at hv
        rcases hv with rfl | rfl <;> simp_all
      · intro hd
        simp [hd]
      · intro hd
        rw [if_neg (by linarith)]
    · simp only [h360, h720, if_false]
      refine ⟨rfl, by simp, ?_, ?_, ?_, ?_, trivial⟩
      · intro v hv hbit
        simp only [List.mem_cons, List.not_mem_nil, or_false] at hv
        rcases hv with rfl | rfl | rfl <;> simp_all [Nat.min_le_left, Nat.min_le_right]
      · intro v hv hbit
        simp only [List.mem_cons, List.not_mem_nil, or_false] at hv
        rcases hv with rfl | rfl | rfl <;> simp_all
      · intro hd
        simp [hd]
      · intro hd
        rw [if_neg (by linarith)]

/-- Witness for C4 (amended): a 1920×1080, 600-second source gets the
three-tier ladder [400, 1000, 2000] with the top tier capped at 1920, and
4-second segments. -/
theorem c4_amended_witness :
    (variantsFor 1920 1080).map Variant.bitrateK = [400, 1000, 2000] ∧
    (∀ v ∈ variantsFor 1920 1080, v.bitrateK = 2000 → v.widthTarget = min 1920 1920 ∧ v.widthTarget ≤ 1920) ∧
    segDurationNum (some 600) = 4 := by
  have h := c4_amended 1920 1080 600
  refine ⟨?_, h.2.2.1, h.2.2.2.2.2.1 (by norm_num)⟩
  simpa using h.1

/-- Value of a digit run, most significant first. -/
def digitsVal (l : List Char) : Nat :=
  l.foldl (fun a c => 10 * a + (c.toNat - 48)) 0

/-- The unsigned part of JavaScript `parseFloat`: parse the longest
leading `digits[.digits]` prefix; `none` models the `NaN` result on input
with no leading number.  (Exponents and `Infinity` do not occur in
ffprobe duration output and are not modelled.) -/
def jsParseFloatCore (l : List Char) : Option ℚ :=
  let intPart := l.takeWhile Char.isDigit
  let rest := l.dropWhile Char.isDigit
  match rest with
  | '.' :: r2 =>
      let fracPart := r2.takeWhile Char.isDigit
      if intPart.isEmpty && fracPart.isEmpty then none
      else some ((digitsVal intPart : ℚ) + (digitsVal fracPart : ℚ) / ((10 : ℚ) ^ fracPart.length))
  | _ => if intPart.isEmpty then none else some ((digitsVal intPart : ℚ))

/-- Leading and trailing whitespace removal (`String.prototype.trim`). -/
def jsTrimChars (l : List Char) : List Char :=
  ((l.dropWhile Char.isWhitespace).reverse.dropWhile Char.isWhitespace).reverse

/-- JavaScript `parseFloat(stdout.trim())` as used on the ffprobe duration
output (part_001 line 166; part_000 line 43 relies on `parseFloat`'s own
leading-whitespace skipping): an optional sign then a decimal number;
`none` models `NaN`. -/
def jsParseFloat (s : String) : Option ℚ :=
  match jsTrimChars s.toList with
  | '-' :: r => (jsParseFloatCore r).map (fun x => -x)
  | '+' :: r => jsParseFloatCore r
  | l => jsParseFloatCore l

/-- Opening text of the ffprobe duration command up to and including the
opening double quote of the interpolated file path (part_001 line 158,
part_000 line 41). -/
def ffprobeCmdPre : String :=
  "ffprobe -v error -show_entries format=duration -of default=noprint_wrappers=1:nokey=1 \""

/-- One double-quote character. -/
def dquote : String := "\""

/-- The ffprobe duration command: the file path is interpolated directly
between two double quotes with no escaping. -/
def ffprobeDurationCmd (filePath : String) : String :=
  ffprobeCmdPre ++ filePath ++ dquote

/-- index.js temporary input path (lines 81-82):
`/tmp/` ++ `Date.now()` ++ `/input` ++ `path.extname(job.key)`; part_001
(lines 99-100) is identical with the job id in place of the timestamp. -/
def tempInputPath (ts key : String) : String :=
  "/tmp/" ++ ts ++ "/input" ++ jsExtname key

/-- The job-scoped output directory `/tmp/` ++ ts ++ `/output`. -/
def tmpOutDir (ts : String) : String :=
  "/tmp/" ++ ts ++ "/output"

/-- index.js `processVideoWithFFmpeg` command (lines 137-148): a fixed
three-tier HLS ladder with unconditional audio mapping; the input path and
output directory are interpolated directly inside double quotes.
Whitespace from the source's backslash line continuations is normalized
to single spaces. -/
def indexFfmpegCmd (inputPath outputDir : String) : String :=
  "ffmpeg -i \"" ++ inputPath ++
    "\" -preset slow -g 48 -sc_threshold 0 -map 0:v:0 -map 0:a:0? -map 0:v:0 -map 0:a:0? -map 0:v:0 -map 0:a:0? -b:v:0 700k -c:v:0 libx264 -filter:v:0 \"scale=640:360\" -b:v:1 1500k -c:v:1 libx264 -filter:v:1 \"scale=1280:720\" -b:v:2 2800k -c:v:2 libx264 -filter:v:2 \"scale=1920:1080\" -c:a aac -b:a 128k -ac 2 -var_stream_map \"v:0,a:0 v:1,a:1 v:2,a:2\" -master_pl_name master.m3u8 -f hls -hls_time 4 -hls_list_size 0 -hls_segment_filename \"" ++
    outputDir ++ "/%v_segment%d.ts\" \"" ++ outputDir ++ "/%v.m3u8\""

/-- part_001 ffmpeg command, fixed part before the audio branch
(lines 181-186): three video tiers at widths 480 / 720 / 1080. -/
def part001CmdBase (inputPath : String) : String :=
  "ffmpeg -i \"" ++ inputPath ++
    "\" -preset slow -g 48 -sc_threshold 0 -map 0:v:0 -map 0:v:0 -map 0:v:0 -b:v:0 400k -c:v:0 libx264 -filter:v:0 \"scale=480:trunc(ow/a/2)*2\" -b:v:1 1000k -c:v:1 libx264 -filter:v:1 \"scale=720:trunc(ow/a/2)*2\" -b:v:2 2000k -c:v:2 libx264 -filter:v:2 \"scale=1080:trunc(ow/a/2)*2\""

/-- part_001 audio branch when the source has an audio stream
(lines 188-192). -/
def part001CmdAudio : String :=
  " -map 0:a:0? -c:a aac -b:a 96k -ac 2 -var_stream_map \"v:0,a:0 v:1,a:0 v:2,a:0\""

/-- part_001 branch when the source has no audio stream (lines 193-196):
video-only variant stream map. -/
def part001CmdNoAudio : String :=
  " -var_stream_map \"v:0 v:1 v:2\""

/-- part_001 command tail (lines 198-202): HLS muxing with the computed
segment duration and the interpolated output directory. -/
def part001CmdTail (segDur : Nat) (outputDir : String) : String :=
  " -master_pl_name master.m3u8 -f hls -hls_time " ++ toString segDur ++
    " -hls_list_size 0 -hls_segment_filename \"" ++ outputDir ++
    "/%v_segment%d.ts\" \"" ++ outputDir ++ "/%v.m3u8\""

/-- The full part_001 ffmpeg command (lines 181-202): base, then the
audio-conditional middle, then the tail. -/
def part001FfmpegCmd (inputPath outputDir : String) (hasAudio : Bool) (segDur : Nat) : String :=
  part001CmdBase inputPath ++
    (if hasAudio then part001CmdAudio else part001CmdNoAudio) ++
    part001CmdTail segDur outputDir

/-- The scale-filter expression of a part_000 tier: fixed output width,
height derived from the aspect ratio. -/
def scaleExprOf (v : Variant) : String :=
  toString v.widthTarget ++ ":trunc(ow/a/2)*2"

/-- part_000 per-tier output options (lines 104-110): for each tier, a
video map, a bitrate option and a scale filter, indexed by position. -/
def part000VariantOpts (vs : List Variant) : List String :=
  vs.enum.flatMap fun p =>
    ["-map 0:v:0",
     "-b:v:" ++ toString p.1 ++ " " ++ toString p.2.bitrateK ++ "k",
     "-filter:v:" ++ toString p.1 ++ " scale=" ++ scaleExprOf p.2]

/-- part_000's unconditional optional audio map option (line 117), added
whether or not the source has audio. -/
def part000MapAudioOpt : String := "-map 0:a:0?"

/-- A single space, the join separator of part_000's option strings. -/
def spaceSep : String := " "

/-- part_000 variant stream map (lines 120-122): one `v:i` entry per tier,
each with an `,a:0` suffix whenever more than one tier is planned —
independent of whether the source has audio. -/
def part000VarStreamMap (vs : List Variant) : String :=
  String.intercalate spaceSep
    ((List.range vs.length).map fun i =>
      "v:" ++ toString i ++ (if 1 < vs.length then ",a:0" else ""))

/-- The full option list part_000 hands to fluent-ffmpeg (lines 95-132):
base options, per-tier options, audio configuration (always present), and
HLS options with the variant stream map.  It takes no audio-presence
input because the source never checks for one. -/
def part000InvocationOpts (w h segDur : Nat) (outputDir : String) : List String :=
  ["-preset slow", "-g 48", "-sc_threshold 0"] ++
    part000VariantOpts (variantsFor w h) ++
    ["-c:a aac", "-b:a 96k", "-ac 2", part000MapAudioOpt] ++
    ["-hls_time " ++ toString segDur, "-hls_list_size 0",
     "-hls_segment_filename " ++ outputDir ++ "/%v_segment%d.ts",
     "-var_stream_map", part000VarStreamMap (variantsFor w h),
     "-master_pl_name master.m3u8"]

/-- Observable filesystem / process actions of one job's pipeline, in
program order. -/
inductive Act
  | mkdirTemp
  | mkdirOut
  | download
  | probeDuration
  | probeInfo
  | probeAudio
  | execFfmpeg (cmd : String)
  | uploadFiles
  | rmTemp
deriving DecidableEq, Repr

/-- The environment a job executes against: whether each external stage
succeeds, what the duration probe prints, how many audio streams the
audio probe reports, and the native resolution the info probe reports. -/
structure Env where
  mkdirTempOk : Bool
  mkdirOutOk : Bool
  downloadOk : Bool
  probeExitOk : Bool
  probeOut : String
  audioProbeExitOk : Bool
  audioStreamCount : Nat
  width : Nat
  height : Nat
  ffmpegOk : Bool
  uploadOk : Bool
deriving Repr

/-- Diagnostic text for a failed filesystem call. -/
def fsMsg : String := "EACCES: permission denied, mkdir"

/-- Diagnostic text for a failed MinIO download. -/
def dlMsg : String := "NoSuchKey: The specified key does not exist."

/-- Diagnostic text for a failed ffprobe run. -/
def probeMsg : String := "ffprobe exited with code 1"

/-- Diagnostic text for a failed ffmpeg run. -/
def tcMsg : String := "ffmpeg exited with code 1"

/-- Diagnostic text for a failed MinIO upload. -/
def upMsg : String := "connect ECONNREFUSED"

/-- index.js `processNextInQueue` job body (lines 79-110): make the
temporary directories, download, transcode with the fixed command, upload,
and — only as the last statement of the `try` block — remove the
workspace; a rejection at any stage jumps to `catch`, which only logs, so
no `rmTemp` happens on any failure path. -/
def indexJsRun (ts : String) (job : Job) (e : Env) : List Act × Outcome :=
  let inPath := tempInputPath ts job.key
  let outDir := tmpOutDir ts
  if e.mkdirTempOk = false then
    ([Act.mkdirTemp], Outcome.failed ErrKind.mkdirFail fsMsg)
  else if e.mkdirOutOk = false then
    ([Act.mkdirTemp, Act.mkdirOut], Outcome.failed ErrKind.mkdirFail fsMsg)
  else if e.downloadOk = false then
    ([Act.mkdirTemp, Act.mkdirOut, Act.download], Outcome.failed ErrKind.storage dlMsg)
  else
    let cmd := indexFfmpegCmd inPath outDir
    if e.ffmpegOk = false then
      ([Act.mkdirTemp, Act.mkdirOut, Act.download, Act.execFfmpeg cmd],
       Outcome.failed ErrKind.transcode tcMsg)
    else if e.uploadOk = false then
      ([Act.mkdirTemp, Act.mkdirOut, Act.download, Act.execFfmpeg cmd, Act.uploadFiles],
       Outcome.failed ErrKind.upload upMsg)
    else
      ([Act.mkdirTemp, Act.mkdirOut, Act.download, Act.execFfmpeg cmd, Act.uploadFiles,
        Act.rmTemp], Outcome.completed)

/-- part_001 `processNextInQueue` job body (lines 97-132): like index.js
but with the duration probe before the transcode and the audio probe
inside `processVideoWithFFmpeg`; a probe exit failure rejects the job, an
unparsable duration does not (it becomes `NaN`); the audio probe's own
failure only makes `hasAudio` false; cleanup is again the last statement
of the `try` block, skipped on every failure path. -/
def part001Run (job : Job) (e : Env) : List Act × Outcome :=
  let inPath := tempInputPath job.id job.key
  let outDir := tmpOutDir job.id
  if e.mkdirTempOk = false then
    ([Act.mkdirTemp], Outcome.failed ErrKind.mkdirFail fsMsg)
  else if e.mkdirOutOk = false then
    ([Act.mkdirTemp, Act.mkdirOut], Outcome.failed ErrKind.mkdirFail fsMsg)
  else if e.downloadOk = false then
    ([Act.mkdirTemp, Act.mkdirOut, Act.download], Outcome.failed ErrKind.storage dlMsg)
  else if e.probeExitOk = false then
    ([Act.mkdirTemp, Act.mkdirOut, Act.download, Act.probeDuration],
     Outcome.failed ErrKind.probe probeMsg)
  else
    let segDur := segDurationNum (jsParseFloat e.probeOut)
    let hasAudio := e.audioProbeExitOk && (e.audioStreamCount != 0)
    let cmd := part001FfmpegCmd inPath outDir hasAudio segDur
    if e.ffmpegOk = false then
      ([Act.mkdirTemp, Act.mkdirOut, Act.download, Act.probeDuration, Act.probeAudio,
        Act.execFfmpeg cmd], Outcome.failed ErrKind.transcode tcMsg)
    else if e.uploadOk = false then
      ([Act.mkdirTemp, Act.mkdirOut, Act.download, Act.probeDuration, Act.probeAudio,
        Act.execFfmpeg cmd, Act.uploadFiles], Outcome.failed ErrKind.upload upMsg)
    else
      ([Act.mkdirTemp, Act.mkdirOut, Act.download, Act.probeDuration, Act.probeAudio,
        Act.execFfmpeg cmd, Act.uploadFiles, Act.rmTemp], Outcome.completed)

/-- part_000 `processNextInQueue` job body (lines 178-198): fixed
`input.mp4` input path, duration probe, resolution probe, dynamic variant
plan handed to fluent-ffmpeg (represented by the joined option list),
upload — and a `finally` block, so `rmTemp` happens on every path,
success or failure. -/
def part000Run (job : Job) (e : Env) : List Act × Outcome :=
  let outDir := tmpOutDir job.id
  if e.mkdirTempOk = false then
    ([Act.mkdirTemp, Act.rmTemp], Outcome.failed ErrKind.mkdirFail fsMsg)
  else if e.mkdirOutOk = false then
    ([Act.mkdirTemp, Act.mkdirOut, Act.rmTemp], Outcome.failed ErrKind.mkdirFail fsMsg)
  else if e.downloadOk = false then
    ([Act.mkdirTemp, Act.mkdirOut, Act.download, Act.rmTemp],
     Outcome.failed ErrKind.storage dlMsg)
  else if e.probeExitOk = false then
    ([Act.mkdirTemp, Act.mkdirOut, Act.download, Act.probeDuration, Act.rmTemp],
     Outcome.failed ErrKind.probe probeMsg)
  else
    let segDur := segDurationNum (jsParseFloat e.probeOut)
    let cmd := String.intercalate spaceSep (part000InvocationOpts e.width e.height segDur outDir)
    if e.ffmpegOk = false then
      ([Act.mkdirTemp, Act.mkdirOut, Act.download, Act.probeDuration, Act.probeInfo,
        Act.execFfmpeg cmd, Act.rmTemp], Outcome.failed ErrKind.transcode tcMsg)
    else if e.uploadOk = false then
      ([Act.mkdirTemp, Act.mkdirOut, Act.download, Act.probeDuration, Act.probeInfo,
        Act.execFfmpeg cmd, Act.uploadFiles, Act.rmTemp], Outcome.failed ErrKind.upload upMsg)
    else
      ([Act.mkdirTemp, Act.mkdirOut, Act.download, Act.probeDuration, Act.probeInfo,
        Act.execFfmpeg cmd, Act.uploadFiles, Act.rmTemp], Outcome.completed)

/-- A `Date.now()` timestamp value for index.js workspace names. -/
def tsOne : String := "1700000000000"

/-- Environment in which every external stage succeeds: a 1920×1080
source, 240-second duration, one audio stream. -/
def envAllOk : Env :=
  { mkdirTempOk := true, mkdirOutOk := true, downloadOk := true,
    probeExitOk := true, probeOut := "240", audioProbeExitOk := true,
    audioStreamCount := 1, width := 1920, height := 1080,
    ffmpegOk := true, uploadOk := true }

/-- Like `envAllOk` except that the MinIO download fails. -/
def envDownloadFail : Env := { envAllOk with downloadOk := false }

set_option maxRecDepth 100000 in
/-- Claim C2 (code bug): in index.js's pipeline, a job whose download
fails never reaches the `fs.rmSync` call — the workspace directory is
created but not removed on the failure path (while a fully successful run
does remove it, and part_000's `finally` removes it even on the same
failure). -/
theorem c2_cleanup_skipped_on_failure :
    Act.mkdirTemp ∈ (indexJsRun tsOne jA envDownloadFail).1 ∧
    Act.rmTemp ∉ (indexJsRun tsOne jA envDownloadFail).1 ∧
    (indexJsRun tsOne jA envDownloadFail).2 = Outcome.failed ErrKind.storage dlMsg ∧
    Act.rmTemp ∈ (indexJsRun tsOne jA envAllOk).1 ∧
    Act.rmTemp ∈ (part000Run jA envDownloadFail).1 := by
  refine ⟨?_, ?_, ?_, ?_, ?_⟩ <;> decide

/-- The outcome of a job whose MinIO download failed. -/
def dlErr : Outcome := Outcome.failed ErrKind.storage dlMsg

/-- Scheduler state after submitting `jA` to the idle service: `jA` starts
immediately. -/
def c3s1 : Sched := runNext (enqueue Sched.init jA)

/-- State after also submitting `jB` while `jA` runs: `jB` waits in the queue. -/
def c3s2 : Sched := runNext (enqueue c3s1 jB)

/-- State after `jA`'s pipeline rejects (download failure): the catch block
logs, `processNextInQueue` runs again and starts `jB`. -/
def c3s3 : Sched := finishJob c3s2 jA dlErr

/-- State after `jB`'s pipeline completes successfully. -/
def c3s4 : Sched := finishJob c3s3 jB Outcome.completed

set_option maxRecDepth 100000 in
/-- Claim C3 (code bug): the failure-containment part holds — after `jA`'s
download failure the scheduler is not corrupted, `jA` is never re-enqueued,
`RunNext` starts `jB`, and both jobs execute in order — but nothing is
ever "marked Failed": the code stores no job state, and part_001's status
endpoint, asked about the failed `jA`, answers `completed`. -/
theorem c3_failure_terminal_runNext :
    Reachable c3s4 ∧
    c3s4.finished = [(jA, dlErr), (jB, Outcome.completed)] ∧
    c3s3.active = [jB] ∧
    c3s4.queue = [] ∧ c3s4.busy = false ∧ c3s4.active = [] ∧
    jobStatusResponse c3s3.queue jA.id = StatusResp.completed := by
  refine ⟨?_, by decide, by decide, by decide, by decide, by decide, by decide⟩
  exact Reachable.step
    (Reachable.step
      (Reachable.step
        (Reachable.step Reachable.init (Step.submit Sched.init jA))
        (Step.submit c3s1 jB))
      (Step.finish c3s2 jA dlErr (by decide)))
    (Step.finish c3s3 jB Outcome.completed (by decide))

/-- Whether `pat` occurs at the head of `l`. -/
def matchesAt : List Char → List Char → Bool
  | [], _ => true
  | _ :: _, [] => false
  | p :: ps, c :: cs => p = c && matchesAt ps cs

/-- Whether `pat` occurs anywhere inside `l` (substring containment). -/
def containsSub (pat : List Char) : List Char → Bool
  | [] => matchesAt pat []
  | c :: cs => matchesAt pat (c :: cs) || containsSub pat cs

/-- Environment in which every stage succeeds but the source has no audio
stream. -/
def envNoAudio : Env := { envAllOk with audioStreamCount := 0 }

/-- The audio entry token of a variant stream map. -/
def tokAudioVar : String := "a:0"

/-- The audio-map selector token. -/
def tokAudioMap : String := "0:a"

/-- The audio-codec option token. -/
def tokAudioCodec : String := "-c:a"

/-- The input path of job `jA` in part_001's workspace. -/
def inPathA : String := tempInputPath jA.id jA.key

/-- The output directory of job `jA`'s workspace. -/
def outDirA : String := tmpOutDir jA.id

/-- The part_001 command built for `jA` when the audio probe reports no
streams and the duration is 240 seconds (2-second segments). -/
def cmdNoAudioSeg2 : String := part001FfmpegCmd inPathA outDirA false 2

set_option maxRecDepth 100000 in
/-- Claim C7, amended: part_001's invocation for a zero-audio source
contains no audio mapping at all — no `a:0` variant-map entry, no `0:a`
stream selector, no `-c:a` codec option — and the job still completes
when the other stages succeed; part_000's invocation however (see the
counterexample) always includes audio mapping. -/
theorem c7_no_audio_mapping_part001 :
    containsSub tokAudioVar.toList cmdNoAudioSeg2.toList = false ∧
    containsSub tokAudioMap.toList cmdNoAudioSeg2.toList = false ∧
    containsSub tokAudioCodec.toList cmdNoAudioSeg2.toList = false ∧
    Act.execFfmpeg cmdNoAudioSeg2 ∈ (part001Run jA envNoAudio).1 ∧
    (part001Run jA envNoAudio).2 = Outcome.completed := by
  refine ⟨?_, ?_, ?_, ?_, ?_⟩ <;> decide

set_option maxRecDepth 100000 in
/-- Claim C7, counterexample: part_000 never checks for audio — for a
zero-audio 960×540 source its variant stream map is
`v:0,a:0 v:1,a:0`, which contains audio entries, and its option list
contains the audio map `-map 0:a:0?`; so the claim that the generated
invocation contains no audio mapping for audio-less sources is false of
part_000. -/
theorem c7_counterexample :
    part000VarStreamMap (variantsFor 960 540) = "v:0,a:0 v:1,a:0" ∧
    containsSub tokAudioVar.toList (part000VarStreamMap (variantsFor 960 540)).toList = true ∧
    part000MapAudioOpt ∈ part000InvocationOpts 960 540 2 outDirA := by
  refine ⟨?_, ?_, ?_⟩ <;> decide

/-- ffprobe's output for a stream without a known duration. -/
def naText : String := "N/A"

/-- Environment in which every stage succeeds but the duration probe
prints unparsable text. -/
def envNaDur : Env := { envAllOk with probeOut := naText }

/-- The part_001 command built for `jA` with audio and the 4-second
segments that an unparsable (`NaN`) duration produces. -/
def cmdNaDur : String := part001FfmpegCmd inPathA outDirA true 4

set_option maxRecDepth 100000 in
/-- Claim C9, counterexample: when the duration probe prints `N/A`,
`parseFloat` yields `NaN` (modelled `none`), yet the job is not failed
with `InvalidMedia` and the transcode step does run — with 4-second
segments — and the job completes when the remaining stages succeed. -/
theorem c9_counterexample :
    jsParseFloat naText = none ∧
    (part001Run jA envNaDur).2 = Outcome.completed ∧
    Act.execFfmpeg cmdNaDur ∈ (part001Run jA envNaDur).1 := by
  refine ⟨?_, ?_, ?_⟩ <;> decide

/-- Claim C9, amended: plan derivation is total — malformed inspector
output cannot fail it.  An unparsable duration becomes `NaN`, the
comparison `NaN < 300` is false, so the plan uses 4-second segments, the
transcode step still runs, and the job completes whenever the remaining
stages succeed; no `InvalidMedia` failure exists in the code. -/
theorem c9_amended (e : Env) (hna : jsParseFloat e.probeOut = none)
    (h1 : e.mkdirTempOk = true) (h2 : e.mkdirOutOk = true)
    (h3 : e.downloadOk = true) (h4 : e.probeExitOk = true) :
    segDurationNum (jsParseFloat e.probeOut) = 4 ∧
    (∃ c, Act.execFfmpeg c ∈ (part001Run jA e).1) ∧
    (e.ffmpegOk = true → e.uploadOk = true →
      (part001Run jA e).2 = Outcome.completed) := by
  refine ⟨by rw [hna]; rfl, ?_, ?_⟩
  · unfold part001Run
    simp only [h1, h2, h3, h4]
    by_cases hf : e.ffmpegOk = false
    · simp [hf]
    · by_cases hu : e.uploadOk = false
      · simp [hf, hu]
      · simp [hf, hu]
  · intro hf hu
    unfold part001Run
    simp [h1, h2, h3, h4, hf, hu]

set_option maxRecDepth 100000 in
/-- Witness for C9 (amended): the `N/A` probe output parses to `none` and
yields 4-second segments, via `c9_amended` at the concrete environment. -/
theorem c9_amended_witness :
    jsParseFloat envNaDur.probeOut = none ∧
    segDurationNum (jsParseFloat envNaDur.probeOut) = 4 := by
  have h := c9_amended envNaDur (by decide) rfl rfl rfl rfl
  exact ⟨by decide, h.1⟩

/-- An object key with an ordinary extension. -/
def goodKey : String := "clip.mp4"

/-- An object key whose extension contains a double-quote character. -/
def badKey : String := "clip.mp\"4"

/-- What the shell sees as the first double-quoted argument of a command:
the characters between the first double quote and the next one. -/
def firstQuotedArg (l : List Char) : Option (List Char) :=
  match l.dropWhile (fun c => c ≠ '"') with
  | [] => none
  | _ :: r => some (r.takeWhile (fun c => c ≠ '"'))

set_option maxRecDepth 100000 in
/-- Claim C10: the ffprobe (and ffmpeg) command strings are built by
direct interpolation of the workspace input path — which embeds the raw
`path.extname` of the submitted key — between double quotes with no
escaping; for a benign key the quoted argument the shell parses is
exactly the input path, but for a key whose extension contains a double
quote the quoted argument ends early, leaving the remaining text to be
read as further shell syntax. -/
theorem c10_shell_quote_escape :
    (∀ p : String, ffprobeDurationCmd p = ffprobeCmdPre ++ p ++ dquote) ∧
    '"' ∈ (jsExtname badKey).toList ∧
    firstQuotedArg (ffprobeDurationCmd (tempInputPath tsOne goodKey)).toList =
      some (tempInputPath tsOne goodKey).toList ∧
    firstQuotedArg (ffprobeDurationCmd (tempInputPath tsOne badKey)).toList ≠
      some (tempInputPath tsOne badKey).toList ∧
    firstQuotedArg (indexFfmpegCmd (tempInputPath tsOne badKey) (tmpOutDir tsOne)).toList ≠
      some (tempInputPath tsOne badKey).toList := by
  refine ⟨fun p => rfl, ?_, ?_, ?_, ?_⟩ <;> decide
